import Mathlib

/-!
# Verification of `src/generate_calendar.py`

A shallow embedding of the calendar script `generate_calendar.py`.

Modelling conventions:

* Instants are integers counting **microseconds since the Unix epoch, in
  UTC**.  A timezone-aware Python `datetime` denotes an absolute instant and
  comparisons between aware datetimes compare absolute instants, so this is a
  faithful representation; the zone only matters for wall-clock operations
  (`.date()`, `.hour`, `.replace(...)`, `strftime`), each of which is modelled
  explicitly by adding the zone's UTC offset.
* `pytz.timezone("Asia/Singapore")` is UTC+8 for all modern instants.
  Crucially, *attaching* this pytz object with `datetime.replace(tzinfo=SG_TZ)`
  (lines 274-275 of the source) uses pytz's baseline info for the zone, which
  is LMT = UTC+6:55 (pytz rounds the historical 6:55:25 offset to whole
  minutes).  Instants obtained by `.astimezone(SG_TZ)` or
  `datetime.now(SG_TZ)` carry the correct +8:00 offset.  Both offsets are
  modelled by separate constants.
* Python `int(x)` truncation of the float `timedelta.total_seconds()/60`:
  all microsecond quantities involved are below 2^53, the true quotient is a
  rational with denominator 6·10^7, and the accumulated floating-point error
  (< 10^-11 minutes) is far smaller than the least possible distance
  (1/(6·10^7) minutes) from a non-integer quotient to an integer, so the
  truncated float always equals the exact truncated quotient.  The embedding
  therefore uses exact integer division.
* `dateutil.rrulestr` / `rrule.between` are a third-party library.  The rule
  subset relevant to the claims is modelled by `RRuleSpec`: a successfully
  parsed weekly rule (`FREQ=WEEKLY`, optional `INTERVAL`, optional `COUNT`),
  whose occurrences for a fixed-offset `dtstart` are `dtstart + k·interval·7
  days`, or `unparsable`, standing for any rule string on which `rrulestr`
  or the expansion raises (the `except` branch, lines 95-104).  The
  reconstruction of the rule string from the property mapping (lines 62-74)
  is abstracted into this parse outcome.
* `parse_events` is modelled in its ranged mode (`start_range`/`end_range`
  both given), which is how `main` always calls it (line 341); the unranged
  mode materialises `list(rule)`, which does not terminate for an unbounded
  rule and is unreachable from `main`.
* Exceptions are modelled by `Except String`; `print` calls inside the
  parsing loop are modelled by a `LogEntry` trace (log entries produced
  before an exception escapes are discarded together with the partial event
  list, exactly as `main`'s `except` branch discards them).
-/

/-- Microseconds per day. -/
def usPerDay : Int := 86400000000

/-- Microseconds per hour. -/
def usPerHour : Int := 3600000000

/-- Microseconds per minute. -/
def usPerMin : Int := 60000000

/-- UTC offset of Asia/Singapore (+08:00) in microseconds, as carried by
datetimes produced via `astimezone(SG_TZ)` or `datetime.now(SG_TZ)`. -/
def sgOffset : Int := 28800000000

/-- UTC offset that pytz attaches when a *naive* datetime is given
`tzinfo=pytz.timezone("Asia/Singapore")` via `.replace` (lines 274-275):
the zone's baseline LMT entry, +6:55:00 = 24 900 s. -/
def sgLmtOffset : Int := 24900000000

/-- Time-of-day (microseconds past local midnight) of an absolute instant,
read on an Asia/Singapore (+08:00) wall clock. -/
def todSG (t : Int) : Int := (t + sgOffset) % usPerDay

/-- Time-of-day (microseconds past midnight) of an absolute instant in UTC. -/
def todUTC (t : Int) : Int := t % usPerDay

/-- Calendar day (days since the epoch) of an absolute instant as seen on an
Asia/Singapore (+08:00) wall clock: models `.date()` of an SG-aware datetime. -/
def pySGDate (t : Int) : Int := (t + sgOffset) / usPerDay

/-- Models `datetime.combine(day_date, t).replace(tzinfo=SG_TZ)` for a wall
clock value `wall` (µs since epoch read as naive local time): pytz attaches
the LMT +6:55 offset, so the absolute instant is `wall - sgLmtOffset`. -/
def pytzReplaceSG (wall : Int) : Int := wall - sgLmtOffset

/-- The value of a `DTSTART`/`DTEND` property as handed over by `icalendar`:
a plain `datetime.date`, a naive `datetime.datetime`, or a tz-aware
`datetime.datetime` (lines 40-57 of the source distinguish exactly these). -/
inductive DtValue where
  /-- `datetime.date`, as days since the epoch. -/
  | date (d : Int)
  /-- naive `datetime.datetime`: wall-clock µs since epoch, no tzinfo. -/
  | datetimeNaive (wall : Int)
  /-- tz-aware `datetime.datetime`: the absolute instant in µs (UTC). -/
  | datetimeAware (t : Int)
deriving DecidableEq, Repr

/-- Whether the raw bound is date-only (`isinstance(date) and not
isinstance(datetime)`, lines 46 and 49). -/
def DtValue.isDateOnly : DtValue → Bool
  | .date _ => true
  | .datetimeNaive _ => false
  | .datetimeAware _ => false

/-- Lines 44-57: a date is combined with `time.min` into a naive midnight
datetime; a naive datetime is assumed UTC (`replace(tzinfo=pytz.UTC)`); an
aware datetime keeps its instant.  Result: the absolute instant in µs. -/
def DtValue.absInstant : DtValue → Int
  | .date d => d * usPerDay
  | .datetimeNaive wall => wall
  | .datetimeAware t => t

/-- Outcome of reconstructing the RRULE string (lines 62-74) and handing it
to `dateutil.rrulestr` (line 78).  `weekly` is a successfully parsed
`FREQ=WEEKLY` rule; `unparsable msg` stands for any rule on which `rrulestr`
or the expansion raises, `msg` being the exception text. -/
inductive RRuleSpec where
  | weekly (interval : Nat) (count : Option Nat)
  | unparsable (msg : String)
deriving DecidableEq, Repr

/-- A raw calendar component as exposed by `icalendar`'s `cal.walk()`:
`name` is the component type (only `"VEVENT"` is processed, line 34); absent
properties are `none`.  `exdates` is the component's `EXDATE` property
(exclusion instants, absolute µs) — the source never reads it. -/
structure VEvent where
  name : String
  summary : Option String
  location : Option String
  dtstart : Option DtValue
  dtend : Option DtValue
  rrule : Option RRuleSpec
  exdates : List Int
deriving DecidableEq, Repr

/-- A parsed event record as appended to `events` by `parse_events`
(lines 88-113): `start`/`end` are absolute instants (the source stores them
as SG-aware datetimes; the instant is unchanged by `astimezone`). -/
structure Event where
  summary : String
  location : String
  start : Int
  end_ : Int
  all_day : Bool
deriving DecidableEq, Repr

/-- One `print` of `parse_events`, modelled structurally. -/
inductive LogEntry where
  /-- `"Parsing events..."` (line 30). -/
  | parsing
  /-- `"Warning: unsupported RRULE for '<summary>' -> <exc>. Falling back to
  single instance."` (line 96). -/
  | rruleWarning (summary : String) (msg : String)
  /-- the per-component `print` of `events[-1]` (line 115). -/
  | parsedEvent (e : Event)
  /-- `"Total events parsed/expanded: <n>"` (line 117). -/
  | total (n : Nat)
deriving DecidableEq, Repr

/-- Python `str.strip()`: remove leading and trailing whitespace.  (Defined
structurally over the character list, so that concrete instances evaluate
inside the kernel; Lean's own `String.trim` is defined by well-founded
recursion and does not reduce definitionally.) -/
def pyStrip (s : String) : String :=
  ⟨((s.data.dropWhile Char.isWhitespace).reverse.dropWhile
      Char.isWhitespace).reverse⟩

/-- Occurrences of a parsed weekly rule anchored at `s` that
`rule.between(a, b, inc=True)` returns (line 80): instants `s + k·interval·7
days` with `k < count` (when a `COUNT` is present) lying in `[a, b]`
inclusive.  For a `dtstart` in a fixed-offset zone the wall-clock stepping of
`dateutil` coincides with stepping the absolute instant.  `kmax` bounds the
enumeration: every occurrence beyond it exceeds `b`. -/
def weekly_occurrences (s : Int) (interval : Nat) (count : Option Nat)
    (a b : Int) : List Int :=
  let step : Int := (interval : Int) * 7 * usPerDay
  let kmax : Nat :=
    match count with
    | some n => n
    | none => if b < s then 0 else ((b - s) / max step 1).toNat + 1
  ((List.range kmax).map (fun (k : Nat) => s + (k : Int) * step)).filter
    (fun o => decide (a ≤ o) && decide (o ≤ b))

/-- Lines 37-113 for a single component (without the trailing `events[-1]`
print): the events it contributes and the warnings it prints, or the
exception text if one escapes.  `component.get("dtstart").dt` with an absent
property is `None.dt`, an `AttributeError` (likewise `dtend`). -/
def component_events (c : VEvent) (a b : Int) :
    Except String (List Event × List LogEntry) :=
  let summary := pyStrip (c.summary.getD "")
  let location := pyStrip (c.location.getD "")
  match c.dtstart with
  | none => .error "AttributeError: NoneType object has no attribute dt"
  | some rawStart =>
    match c.dtend with
    | none => .error "AttributeError: NoneType object has no attribute dt"
    | some rawEnd =>
      let all_day := rawStart.isDateOnly || rawEnd.isDateOnly
      let s := rawStart.absInstant
      let e := rawEnd.absInstant
      match c.rrule with
      | none =>
        .ok ([{ summary := summary, location := location,
                start := s, end_ := e, all_day := all_day }], [])
      | some (.weekly interval count) =>
        let occs := weekly_occurrences s interval count a b
        .ok (occs.map (fun o =>
          { summary := summary, location := location,
            start := o, end_ := o + (e - s), all_day := all_day }), [])
      | some (.unparsable msg) =>
        .ok ([{ summary := summary, location := location,
                start := s, end_ := e, all_day := all_day }],
             [.rruleWarning summary msg])

/-- The component loop of `parse_events` (lines 33-115).  `acc` is the
`events` list accumulated so far; line 115 prints `events[-1]` after each
VEVENT, which raises `IndexError` when the list is still empty (a component
whose expansion produced no occurrence and no prior events). -/
def parse_events_go (a b : Int) :
    List VEvent → List Event → Except String (List Event × List LogEntry)
  | [], acc => .ok (acc, [])
  | c :: cs, acc =>
    if c.name ≠ "VEVENT" then parse_events_go a b cs acc
    else
      match component_events c a b with
      | .error m => .error m
      | .ok (evs, lg) =>
        let acc' := acc ++ evs
        match acc'.getLast? with
        | none => .error "IndexError: list index out of range"
        | some last =>
          match parse_events_go a b cs acc' with
          | .error m => .error m
          | .ok (allEvs, lgs) =>
            .ok (allEvs, lg ++ [.parsedEvent last] ++ lgs)

/-- Models `parse_events(cal, start_range, end_range)` (lines 25-118) over the
VEVENT components of the calendar, in the ranged mode used by `main`. -/
def parse_events (components : List VEvent) (a b : Int) :
    Except String (List Event × List LogEntry) :=
  match parse_events_go a b components [] with
  | .error m => .error m
  | .ok (evs, lgs) => .ok (evs, [.parsing] ++ lgs ++ [.total evs.length])

/-- The event list `main` ends up with (lines 337-344): `parse_events`
guarded by `try/except`, an escaping exception replacing the whole list by
`[]`. -/
def main_events (components : List VEvent) (a b : Int) : List Event :=
  match parse_events components a b with
  | .ok (evs, _) => evs
  | .error _ => []

/-- Models `week_bounds_for` (lines 123-133) for a tz-aware reference instant, as
produced by `datetime.now(SG_TZ)` in `main` (offset +08:00; a naive argument
would merely be tagged with the zone instead, line 126).  Python's
`weekday()` is Monday=0..Sunday=6; 1970-01-01 was a Thursday, so the weekday
of epoch day `n` is `(n + 3) mod 7`.  `replace(hour=0, ...)` floors the wall
clock to midnight keeping the (fixed, +8) tzinfo.  The week end is the start
plus `timedelta(days=6, hours=23, minutes=59, seconds=59)` = 604 799 s. -/
def week_bounds_for (t : Int) : Int × Int :=
  let wall := t + sgOffset
  let weekday := (wall / usPerDay + 3) % 7
  let days_to_sunday := (weekday + 1) % 7
  let shifted := wall - days_to_sunday * usPerDay
  let start_wall := shifted - shifted % usPerDay
  (start_wall - sgOffset, start_wall - sgOffset + 604799000000)

/-- The body of the `filter_week` loop for one event record (lines 147-168):
returns the record as it stands after the iteration together with the copy
appended to `week_events`, if any.  The source reads `e`, builds `e_copy =
e.copy()` (line 158) and writes the clamped bounds only into `e_copy`; the
original record is returned unchanged.  Event instants coming out of
`parse_events` are tz-aware, so the naive-promotion guards (lines 151-154)
do not fire in the modelled pipeline. -/
def filter_week_step (ws we : Int) (e : Event) : Event × Option Event :=
  let s := e.start
  let t := e.end_
  if t ≥ ws ∧ s ≤ we then
    let e_copy : Event :=
      { e with start := if s < ws then ws else s,
               end_ := if t > we then we else t }
    (e, some e_copy)
  else
    (e, none)

/-- The `filter_week` loop over the whole input list: final state of the
input records, and the `week_events` output in order. -/
def filter_week_loop (ws we : Int) : List Event → List Event × List Event
  | [] => ([], [])
  | e :: rest =>
    let step := filter_week_step ws we e
    let tail := filter_week_loop ws we rest
    (step.fst :: tail.fst,
     match step.snd with
     | some c => c :: tail.snd
     | none => tail.snd)

/-- Models `filter_week(events, reference_date)` (lines 138-171): computes the week
bounds from the reference instant and returns `(week_events,
start_of_week)`. -/
def filter_week (events : List Event) (reference_date : Int) :
    List Event × Int :=
  let wb := week_bounds_for reference_date
  ((filter_week_loop wb.fst wb.snd events).snd, wb.fst)

/-- The Window Filter as the spec and claim C4 word it: keep exactly the
events with `event.end >= window.start` and `event.start <= window.end`
(inclusive both sides), replacing a too-early start by the window start and
a too-late end by the window end. -/
def window_filter_spec (events : List Event) (ws we : Int) : List Event :=
  (events.filter (fun e => decide (e.end_ ≥ ws ∧ e.start ≤ we))).map
    (fun e => { e with start := max e.start ws, end_ := min e.end_ we })

/-- Models `replace(minute=0, second=0, microsecond=0)` on an SG-aware (+08:00)
datetime: floor the wall clock to the whole hour. -/
def floorHourSG (t : Int) : Int := t - (t + sgOffset) % usPerHour

/-- Models `replace(hour=h, minute=0, second=0, microsecond=0)` on an SG-aware
(+08:00) datetime: set the wall-clock time-of-day to `h` o'clock. -/
def replaceHourSG (t : Int) (h : Int) : Int :=
  t - (t + sgOffset) % usPerDay + h * usPerHour

/-- Wall-clock hour (0-23) of an SG-aware datetime: `.hour`. -/
def hourSG (t : Int) : Int := (t + sgOffset) % usPerDay / usPerHour

/-- Wall-clock minute (0-59) of an SG-aware datetime: `.minute`. -/
def minuteSG (t : Int) : Int := (t + sgOffset) % usPerHour / usPerMin

/-- Timeline bounds of `generate_html` (lines 184-195): the hour-floored
min start / max end of the timed events, the end pushed one hour past the
latest end; or the default 08:00-17:00 of the week start when no timed event
exists. -/
def timeline_bounds (events : List Event) (start_of_week : Int) : Int × Int :=
  let timed_events := events.filter (fun e => !e.all_day)
  match (timed_events.map (fun e => e.start)).min?,
        (timed_events.map (fun e => e.end_)).max? with
  | some earliest, some latest =>
    (floorHourSG earliest, floorHourSG (latest + usPerHour))
  | _, _ =>
    (replaceHourSG start_of_week 8, replaceHourSG start_of_week 17)

/-- Whether an all-day event covers epoch day `d` (lines 207-209): its start
date through the date of `end - 1 s`, dates taken on the SG (+08:00) wall
clock of the event's instants. -/
def all_day_covers (e : Event) (d : Int) : Bool :=
  decide (pySGDate e.start ≤ d) && decide (d ≤ pySGDate (e.end_ - 1000000))

/-- Epoch day of column `i` (`(start_of_week + timedelta(days=i)).date()`,
lines 204/255). -/
def day_date_of (start_of_week : Int) (i : Nat) : Int :=
  pySGDate (start_of_week + (i : Int) * usPerDay)

/-- Number of all-day rows needed per day column (lines 202-211). -/
def all_day_rows_per_day (events : List Event) (start_of_week : Int) :
    List Nat :=
  let all_day_events := events.filter (fun e => e.all_day)
  (List.range 7).map (fun i =>
    (all_day_events.filter (fun e =>
      all_day_covers e (day_date_of start_of_week i))).length)

/-- Vertical offset of the timed grid below the header and the all-day area
(lines 211-219): `HEADER_HEIGHT + max_all_day_rows * ALL_DAY_ROW_HEIGHT +
TOP_PADDING` with the constants 20, 18 and 6. -/
def timed_area_offset_of (events : List Event) (start_of_week : Int) : Int :=
  let max_all_day_rows := ((all_day_rows_per_day events start_of_week).max?).getD 0
  20 + (max_all_day_rows : Int) * 18 + 6

/-- Geometry and content of one emitted timed-event `<div class="event">`.
`left`/`right` are the horizontal insets of the block inside its day column;
they come from the single `.event` style rule `left:2px; right:2px`
(line 232), which applies to every emitted block alike. -/
structure Block where
  day : Nat
  top : Int
  height : Int
  left : Int
  right : Int
  summary : String
  time_str : String
  location : String
deriving DecidableEq, Repr

/-- Rendering of a (nonnegative) hour or minute value in the `%02d` style. -/
def pad2 (n : Int) : String :=
  if n < 10 then "0" ++ toString n else toString n

/-- The time label `e["start"].strftime("%H:%M") - e["end"].strftime("%H:%M")` of line 301. -/
def time_str_of (e : Event) : String :=
  pad2 (hourSG e.start) ++ ":" ++ pad2 (minuteSG e.start) ++ " - " ++
    pad2 (hourSG e.end_) ++ ":" ++ pad2 (minuteSG e.end_)

/-- The `"<" → "&lt;", ">" → "&gt;"` escaping of lines 299-300. -/
def escape_html (s : String) : String :=
  (s.replace "<" "&lt;").replace ">" "&gt;"

/-- Lines 269-309 for a single timed event `e` in day column `i`: intersect
the event with the day (`combine(day_date, time.min/max).replace(tzinfo=
SG_TZ)` — pytz attaches the LMT +6:55 offset here) and with the timeline
window, and emit the block geometry, or `none` when either intersection is
empty.  `time.max` is `23:59:59.999999`.  `int(x)` of the nonnegative exact
minute quantities is floor division (see the header comment on floats). -/
def timed_block (timeline_start timeline_end timed_area_offset : Int)
    (i : Nat) (day_date : Int) (e : Event) : Option Block :=
  let day_start_dt := pytzReplaceSG (day_date * usPerDay)
  let day_end_dt := pytzReplaceSG (day_date * usPerDay + 86399999999)
  let seg_start := max e.start day_start_dt
  let seg_end := min e.end_ day_end_dt
  if seg_end ≤ seg_start then none
  else
    let seg_start_tl := max seg_start timeline_start
    let seg_end_tl := min seg_end timeline_end
    if seg_end_tl ≤ seg_start_tl then none
    else
      let minutes_from_tl := (seg_start_tl - timeline_start) / usPerMin
      let minutes_duration := (seg_end_tl - seg_start_tl) / usPerMin
      let top_px0 := timed_area_offset + minutes_from_tl
      let height_px := max 18 minutes_duration
      let top_px := if top_px0 < timed_area_offset then timed_area_offset
        else top_px0
      some { day := i, top := top_px, height := height_px,
             left := 2, right := 2,
             summary := escape_html e.summary,
             time_str := time_str_of e,
             location := escape_html e.location }

/-- All timed-event blocks `generate_html` emits, in document order: day
columns 0-6 (line 254), within each column the timed events in list order
(line 269). -/
def timed_blocks (events : List Event) (start_of_week : Int) : List Block :=
  let timed_events := events.filter (fun e => !e.all_day)
  let tl := timeline_bounds events start_of_week
  let offset := timed_area_offset_of events start_of_week
  (List.range 7).flatMap (fun i =>
    timed_events.filterMap
      (timed_block tl.fst tl.snd offset i (day_date_of start_of_week i)))

/-- The short day names of line 256. -/
def dayNames : List String := ["Sun", "Mon", "Tue", "Wed", "Thu", "Fri", "Sat"]

/-- Day of the month of epoch day `z` in the proleptic Gregorian calendar
(the `.day` of the corresponding Python `date`), by the standard
civil-from-days algorithm. -/
def dayOfMonth (z : Int) : Int :=
  let zs := z + 719468
  let era := zs / 146097
  let doe := zs - era * 146097
  let yoe := (doe - doe / 1460 + doe / 36524 - doe / 146096) / 365
  let doy := doe - (365 * yoe + yoe / 4 - yoe / 100)
  let mp := (5 * doy + 2) / 153
  doy - (153 * mp + 2) / 5 + 1

/-- The hour-label divs (lines 242-245): one `<div>HH:MM</div>` per hour
from `timeline_start` while strictly before `timeline_end`. -/
def hour_labels (timeline_start timeline_end : Int) : List String :=
  let n : Nat :=
    if timeline_end ≤ timeline_start then 0
    else ((timeline_end - timeline_start + usPerHour - 1) / usPerHour).toNat
  (List.range n).map (fun k =>
    let cur := timeline_start + (k : Int) * usPerHour
    "<div>" ++ pad2 (hourSG cur) ++ ":" ++ pad2 (minuteSG cur) ++ "</div>")

/-- The stacked all-day divs of one day column (lines 259-266); the summary
is emitted unescaped, exactly as in the source. -/
def all_day_divs (all_day_events : List Event) (day_date : Int) : List String :=
  ((all_day_events.filter (fun e => all_day_covers e day_date)).enum).map
    (fun p =>
      "<div class=\"all-day\" style=\"top:" ++ toString (20 + (p.fst : Int) * 18) ++
        "px;height:18px;\">" ++ p.snd.summary ++ "</div>")

/-- The `<div class="event">` markup of one timed block (lines 303-309). -/
def block_div (b : Block) : String :=
  "<div class=\"event\" style=\"top:" ++ toString b.top ++ "px;height:" ++
    toString b.height ++ "px;\">" ++ b.summary ++ "<br><span class=\"time\">" ++
    b.time_str ++ "</span><br><span class=\"location\">" ++ b.location ++
    "</span></div>"

/-- Models `generate_html(events, start_of_week)` (lines 176-317): the full output
document, one string per `html_parts.append`, joined with newlines. -/
def generate_html (events : List Event) (start_of_week : Int) : String :=
  let all_day_events := events.filter (fun e => e.all_day)
  let timed_events := events.filter (fun e => !e.all_day)
  let tl := timeline_bounds events start_of_week
  let timeline_start := tl.fst
  let timeline_end := tl.snd
  let total_minutes := (timeline_end - timeline_start).tdiv usPerMin
  let timed_area_offset := timed_area_offset_of events start_of_week
  let head_parts : List String := [
    "<!DOCTYPE html>",
    "<html><head><meta charset=\"utf-8\"><title>Kobo Calendar Timetable</title><style>",
    "body \x7bfont-family: sans-serif; background:#fff; color:#000; margin:0; padding:0.5em;\x7d",
    ".container \x7bdisplay:flex; width:100%;\x7d",
    ".hour-labels \x7bwidth:40px; display:flex; flex-direction:column; margin-top:" ++
      toString timed_area_offset ++ "px;\x7d",
    ".hour-labels div \x7bheight:60px; font-size:0.7em; text-align:right; padding-right:2px; border-bottom:1px solid #eee;\x7d",
    ".week \x7bdisplay:flex; flex:1;\x7d",
    ".day-column \x7bflex:1; border-left:1px solid #ccc; position:relative; margin-left:2px; min-height:" ++
      toString (total_minutes * 1 + timed_area_offset + 20) ++ "px;\x7d",
    ".day-column-header \x7btext-align:center; background:#eee; font-weight:bold; border-bottom:1px solid #ccc; height:20px; line-height:20px;\x7d",
    ".event \x7bposition:absolute; left:2px; right:2px; background:#999; color:#fff; font-size:0.7em; padding:1px; border-radius:2px; line-height:1em; overflow:hidden;\x7d",
    ".event .time \x7bfont-size:0.65em;\x7d",
    ".event .location \x7bfont-size:0.65em;\x7d",
    ".all-day \x7bposition:absolute; left:2px; right:2px; background:#555; color:#fff; font-size:0.7em; padding:1px; border-radius:2px; overflow:hidden;\x7d",
    "</style></head><body>",
    "<div class=\"container\">",
    "<div class=\"hour-labels\">"]
  let day_cols : List String := (List.range 7).flatMap (fun i =>
    let day_date := day_date_of start_of_week i
    ["<div class=\"day-column\"><div class=\"day-column-header\">" ++
        dayNames.getD i "" ++ " " ++ toString (dayOfMonth day_date) ++ "</div>"] ++
      all_day_divs all_day_events day_date ++
      timed_events.filterMap (fun e =>
        (timed_block timeline_start timeline_end timed_area_offset i day_date e).map
          block_div) ++
      ["</div>"])
  String.intercalate "\n"
    (head_parts ++ hour_labels timeline_start timeline_end ++
      ["</div>", "<div class=\"week\">"] ++ day_cols ++
      ["</div>", "</div>", "</body></html>"])

/-- One run of the filter-and-render stage of `main` (lines 347-357): filter
and clamp the parsed events to the week of `now`, render the document and
overwrite `calendar.html`.  `prior` is the content of the output file before
the run; the file is opened in mode `"w"` and fully rewritten, so the
resulting document is computed without reading it. -/
def run_pipeline (events : List Event) (now : Int) (_prior : String) : String :=
  let fw := filter_week events now
  generate_html fw.fst fw.snd

/-- C1 input: a date-only (all-day) two-day component. -/
def c1comp : VEvent :=
  { name := "VEVENT", summary := some "Holiday", location := none,
    dtstart := some (.date 20000), dtend := some (.date 20001),
    rrule := none, exdates := [] }

/-- The event `parse_events` produces from `c1comp`: epoch-day 20000/20001
midnights taken as UTC instants. -/
def c1event : Event :=
  { summary := "Holiday", location := "", start := 1728000000000000,
    end_ := 1728086400000000, all_day := true }

/-- C2 input: a weekly event (02:00 UTC = 10:00 SG) whose `EXDATE` set
holds its second occurrence. -/
def c2comp : VEvent :=
  { name := "VEVENT", summary := some "Weekly sync", location := none,
    dtstart := some (.datetimeAware 1728007200000000),
    dtend := some (.datetimeAware 1728010800000000),
    rrule := some (.weekly 1 none), exdates := [1728612000000000] }

/-- C2 window start: the first occurrence instant. -/
def c2a : Int := 1728007200000000

/-- C2 window end: 27 days later, so the window holds four weekly
occurrences. -/
def c2b : Int := 1730340000000000

/-- C3 input: a well-formed timed component. -/
def c3good : VEvent :=
  { name := "VEVENT", summary := some "Lecture", location := some "LT1",
    dtstart := some (.datetimeAware 1728007200000000),
    dtend := some (.datetimeAware 1728010800000000),
    rrule := none, exdates := [] }

/-- C3 input: a component with no start bound (`DTSTART` absent). -/
def c3bad : VEvent :=
  { name := "VEVENT", summary := some "Broken", location := none,
    dtstart := none, dtend := none, rrule := none, exdates := [] }

/-- The event `c3good` yields when it is parsed on its own. -/
def c3goodEvent : Event :=
  { summary := "Lecture", location := "LT1", start := 1728007200000000,
    end_ := 1728010800000000, all_day := false }

/-- C5 window start: SG midnight of epoch day 20000. -/
def c5sow : Int := 1727971200000000

/-- C5 input: a timed event 10:00-12:00 SG on day 20000. -/
def c5e1 : Event :=
  { summary := "A", location := "", start := 1728007200000000,
    end_ := 1728014400000000, all_day := false }

/-- C5 input: a second timed event with exactly the same time range. -/
def c5e2 : Event :=
  { summary := "B", location := "", start := 1728007200000000,
    end_ := 1728014400000000, all_day := false }

/-- C6 input: a 30-minute weekly event. -/
def c6comp : VEvent :=
  { name := "VEVENT", summary := some "Standup", location := some "Room 1",
    dtstart := some (.datetimeAware 1728007200000000),
    dtend := some (.datetimeAware 1728009000000000),
    rrule := some (.weekly 1 none), exdates := [] }

/-- The single occurrence of `c6comp` in the window `[c2a, c2a]`. -/
def c6event : Event :=
  { summary := "Standup", location := "Room 1", start := 1728007200000000,
    end_ := 1728009000000000, all_day := false }

/-- C7 input: a timed component whose recurrence rule `rrulestr` rejects. -/
def c7comp : VEvent :=
  { name := "VEVENT", summary := some "Gym", location := none,
    dtstart := some (.datetimeAware 1728010800000000),
    dtend := some (.datetimeAware 1728014400000000),
    rrule := some (.unparsable "Unknown token"), exdates := [] }

/-- The fallback instance `parse_events` emits for `c7comp`. -/
def c7event : Event :=
  { summary := "Gym", location := "", start := 1728010800000000,
    end_ := 1728014400000000, all_day := false }

/-- The single non-recurring instance built from a component's own
(normalised) bounds: the record of lines 98-104, equal to the non-recurring
record of lines 107-113. -/
def fallback_event (c : VEvent) (ds de : DtValue) : Event :=
  { summary := pyStrip (c.summary.getD ""),
    location := pyStrip (c.location.getD ""),
    start := ds.absInstant, end_ := de.absInstant,
    all_day := ds.isDateOnly || de.isDateOnly }

theorem filter_week_step_fst (ws we : Int) (e : Event) :
    (filter_week_step ws we e).fst = e := by
  simp only [filter_week_step]
  split <;> rfl

theorem filter_week_loop_fst (ws we : Int) (l : List Event) :
    (filter_week_loop ws we l).fst = l := by
  induction l with
  | nil => rfl
  | cons e t ih =>
    simp only [filter_week_loop, filter_week_step_fst, ih]

theorem filter_week_loop_snd (ws we : Int) (l : List Event) :
    (filter_week_loop ws we l).snd = window_filter_spec l ws we := by
  induction l with
  | nil => rfl
  | cons e t ih =>
    have hs : (if e.start < ws then ws else e.start) = max e.start ws := by
      rcases le_or_lt ws e.start with h1 | h1
      · rw [if_neg (not_lt.mpr h1), max_eq_left h1]
      · rw [if_pos h1, max_eq_right h1.le]
    have ht : (if e.end_ > we then we else e.end_) = min e.end_ we := by
      rcases le_or_lt e.end_ we with h1 | h1
      · rw [if_neg (not_lt.mpr h1), min_eq_left h1]
      · rw [if_pos h1, min_eq_right h1.le]
    by_cases h : e.end_ ≥ ws ∧ e.start ≤ we
    · simp [filter_week_loop, filter_week_step, window_filter_spec,
        List.filter_cons, h, hs, ht, ih]
    · simp [filter_week_loop, filter_week_step, window_filter_spec,
        List.filter_cons, h, ih]

/-- C4: the Window Filter returns exactly the events overlapping the display
window inclusively at both boundaries, with a too-early start replaced by
the window start and a too-late end by the window end. -/
theorem window_filter_correct (events : List Event) (r : Int) :
    (filter_week events r).fst =
      window_filter_spec events (week_bounds_for r).fst (week_bounds_for r).snd := by
  unfold filter_week
  exact filter_week_loop_snd _ _ _

theorem week_bounds_le (r : Int) :
    (week_bounds_for r).fst ≤ (week_bounds_for r).snd := by
  simp only [week_bounds_for]
  omega

theorem window_filter_spec_idem {ws we : Int} (h : ws ≤ we) (l : List Event) :
    window_filter_spec (window_filter_spec l ws we) ws we =
      window_filter_spec l ws we := by
  induction l with
  | nil => rfl
  | cons e t ih =>
    by_cases hp : e.end_ ≥ ws ∧ e.start ≤ we
    · have h1 : min e.end_ we ≥ ws := le_min hp.1 h
      have h2 : max e.start ws ≤ we := max_le hp.2 h
      have hmax : max (max e.start ws) ws = max e.start ws := by
        rw [max_assoc, max_self]
      have hmin : min (min e.end_ we) we = min e.end_ we := by
        rw [min_assoc, min_self]
      simpa [window_filter_spec, List.filter_cons, hp, h1, h2, hmax, hmin]
        using ih
    · simpa [window_filter_spec, List.filter_cons, hp] using ih

/-- C8: applying the Window Filter twice with the same reference date (hence
the same display window) yields the same result as applying it once. -/
theorem window_filter_idempotent (events : List Event) (r : Int) :
    filter_week (filter_week events r).fst r = filter_week events r := by
  unfold filter_week
  simp only [filter_week_loop_snd]
  rw [window_filter_spec_idem (week_bounds_le r)]

/-- C10: the Window Filter never mutates its input: the state of the input
event records after the `filter_week` loop is the input list itself (the
clamped bounds are written only into the fresh `e.copy()` records). -/
theorem filter_week_no_mutation (events : List Event) (r : Int) :
    (filter_week_loop (week_bounds_for r).fst (week_bounds_for r).snd
      events).fst = events :=
  filter_week_loop_fst _ _ _

/-- C9: for fixed parsed feed content and a fixed reference instant, two
runs of the filter-and-render pipeline produce identical output documents;
in particular the result does not depend on the content the output file held
before each run. -/
theorem pipeline_deterministic (events : List Event) (now : Int)
    (prior1 prior2 : String) :
    run_pipeline events now prior1 = run_pipeline events now prior2 := rfl

/-- C5 (amended): the renderer performs no lane assignment — every timed
event block is emitted with the same fixed horizontal extent (the single
`.event` style rule `left:2px; right:2px`, spanning the full day column),
so timed events with overlapping time ranges on the same day are rendered
at horizontally overlapping (identical) positions. -/
theorem no_lanes_full_width (events : List Event) (start_of_week : Int) :
    ((timed_blocks events start_of_week).all
      (fun b => b.left == 2 && b.right == 2)) = true := by
  rw [List.all_eq_true]
  intro b hb
  simp only [timed_blocks, List.mem_flatMap, List.mem_filterMap] at hb
  obtain ⟨i, -, e, -, hbe⟩ := hb
  simp only [timed_block] at hbe
  split at hbe
  · exact absurd hbe (by simp)
  · split at hbe
    · exact absurd hbe (by simp)
    · simp only [Option.some.injEq] at hbe
      subst hbe
      rfl

/-- C5 counterexample: two timed events with identical (hence fully
overlapping) time ranges on the same day are both rendered, with identical
horizontal extents and identical vertical geometry — the same visual
position, not non-overlapping lanes. -/
theorem overlap_lanes_counterexample :
    (timed_blocks [c5e1, c5e2] c5sow).map
        (fun b => (b.day, b.left, b.right, b.top, b.height)) =
      [(0, 2, 2, 26, 120), (0, 2, 2, 26, 120)] ∧
      c5e1.start < c5e2.end_ ∧ c5e2.start < c5e1.end_ := by decide

theorem parse_events_singleton {c : VEvent} {a b : Int} {evs : List Event}
    {lgs : List LogEntry} (h : parse_events [c] a b = .ok (evs, lgs)) :
    evs = [] ∨ ∃ lg, component_events c a b = .ok (evs, lg) := by
  by_cases hn : c.name ≠ "VEVENT"
  · left
    simp only [parse_events, parse_events_go, if_pos hn] at h
    simp only [Except.ok.injEq, Prod.mk.injEq] at h
    exact h.1.symm
  · rcases hce : component_events c a b with m | p
    · simp only [parse_events, parse_events_go, if_neg hn, hce] at h
      exact Except.noConfusion h
    · rcases hl : p.1.getLast? with _ | last
      · simp only [parse_events, parse_events_go, if_neg hn, hce,
          List.nil_append, hl] at h
        exact Except.noConfusion h
      · simp only [parse_events, parse_events_go, if_neg hn, hce,
          List.nil_append, hl] at h
        simp only [Except.ok.injEq, Prod.mk.injEq] at h
        right
        exact ⟨p.2, by rw [← h.1, Prod.mk.eta]⟩

theorem weekly_occurrences_mem {s : Int} {interval : Nat} {count : Option Nat}
    {a b o : Int} (h : o ∈ weekly_occurrences s interval count a b) :
    ∃ k : Nat, o = s + (k : Int) * ((interval : Int) * 7 * usPerDay) := by
  simp only [weekly_occurrences] at h
  obtain ⟨h1, -⟩ := List.mem_filter.mp h
  obtain ⟨k, -, hk⟩ := List.mem_map.mp h1
  exact ⟨k, hk.symm⟩

theorem day_multiple_tod (m : Int) :
    todUTC (m * usPerDay) = 0 ∧ todSG (m * usPerDay) = 28800000000 := by
  unfold todUTC todSG usPerDay sgOffset
  constructor <;> omega

/-- C1 counterexample: a date-only component yields an `all_day = true`
event whose start and end instants fall at 08:00, not 00:00, on the
Asia/Singapore wall clock (the date is promoted to *UTC* midnight, which is
08:00 in the +08:00 display zone). -/
theorem allday_midnight_counterexample :
    main_events [c1comp] 0 0 = [c1event] ∧ c1event.all_day = true ∧
      todSG c1event.start = 28800000000 ∧ ¬ todSG c1event.start = 0 ∧
      ¬ todSG c1event.end_ = 0 := by decide

/-- C1 (amended): for every parsed event produced from a component whose
start and end bounds are both date-only, `all_day = true` and both `start`
and `end` have zero time-of-day in **UTC** — hence time-of-day 08:00 (not
midnight) in the Asia/Singapore reference zone. -/
theorem allday_midnight_amended (c : VEvent) (a b d d' : Int)
    (h1 : c.dtstart = some (.date d)) (h2 : c.dtend = some (.date d')) :
    ∀ evs lgs, parse_events [c] a b = .ok (evs, lgs) →
      ∀ e ∈ evs, e.all_day = true ∧ todUTC e.start = 0 ∧ todUTC e.end_ = 0 ∧
        todSG e.start = 28800000000 ∧ todSG e.end_ = 28800000000 := by
  intro evs lgs h e he
  rcases parse_events_singleton h with rfl | ⟨lg, hc⟩
  · simp at he
  · simp only [component_events, h1, h2, DtValue.isDateOnly,
      DtValue.absInstant, Bool.true_or] at hc
    rcases hr : c.rrule with _ | r
    · rw [hr] at hc
      simp only [Except.ok.injEq, Prod.mk.injEq] at hc
      rw [← hc.1] at he
      rw [List.mem_singleton] at he
      subst he
      refine ⟨rfl, ?_, ?_, ?_, ?_⟩
      · exact (day_multiple_tod d).1
      · exact (day_multiple_tod d').1
      · exact (day_multiple_tod d).2
      · exact (day_multiple_tod d').2
    · rcases r with ⟨interval, count⟩ | msg
      · rw [hr] at hc
        simp only [Except.ok.injEq, Prod.mk.injEq] at hc
        rw [← hc.1] at he
        obtain ⟨o, ho, rfl⟩ := List.mem_map.mp he
        obtain ⟨k, rfl⟩ := weekly_occurrences_mem ho
        have hst : d * usPerDay + (k : Int) * ((interval : Int) * 7 * usPerDay) =
            (d + (k : Int) * (interval : Int) * 7) * usPerDay := by ring
        have hen : d * usPerDay + (k : Int) * ((interval : Int) * 7 * usPerDay) +
            (d' * usPerDay - d * usPerDay) =
            (d' + (k : Int) * (interval : Int) * 7) * usPerDay := by ring
        refine ⟨rfl, ?_, ?_, ?_, ?_⟩
        · simpa only [hst] using (day_multiple_tod (d + (k : Int) * (interval : Int) * 7)).1
        · simpa only [hen] using (day_multiple_tod (d' + (k : Int) * (interval : Int) * 7)).1
        · simpa only [hst] using (day_multiple_tod (d + (k : Int) * (interval : Int) * 7)).2
        · simpa only [hen] using (day_multiple_tod (d' + (k : Int) * (interval : Int) * 7)).2
      · rw [hr] at hc
        simp only [Except.ok.injEq, Prod.mk.injEq] at hc
        rw [← hc.1] at he
        rw [List.mem_singleton] at he
        subst he
        refine ⟨rfl, ?_, ?_, ?_, ?_⟩
        · exact (day_multiple_tod d).1
        · exact (day_multiple_tod d').1
        · exact (day_multiple_tod d).2
        · exact (day_multiple_tod d').2

/-- Witness for the amended C1 at the concrete component `c1comp`. -/
theorem allday_midnight_amended_witness :
    c1event.all_day = true ∧ todUTC c1event.start = 0 ∧
      todUTC c1event.end_ = 0 ∧ todSG c1event.start = 28800000000 ∧
      todSG c1event.end_ = 28800000000 :=
  allday_midnight_amended c1comp 0 0 20000 20001 rfl rfl [c1event]
    [.parsing, .parsedEvent c1event, .total 1] rfl c1event
    (by decide)

theorem component_events_exdates (c : VEvent) (a b : Int) (xs : List Int) :
    component_events { c with exdates := xs } a b = component_events c a b := by
  cases c
  rfl

theorem parse_events_go_exdates (a b : Int) (f : VEvent → List Int) :
    ∀ (l : List VEvent) (acc : List Event),
      parse_events_go a b (l.map (fun c => { c with exdates := f c })) acc =
        parse_events_go a b l acc := by
  intro l
  induction l with
  | nil => intro acc; rfl
  | cons c cs ih =>
    intro acc
    have hname : ({ c with exdates := f c } : VEvent).name = c.name := by
      cases c; rfl
    simp only [List.map_cons, parse_events_go, hname,
      component_events_exdates, ih]

/-- C2 (amended): the expander ignores the exclusion-date set entirely —
`parse_events` is independent of every component's `exdates` field, so an
occurrence whose instant matches an exclusion entry is still produced, and a
weekly rule with one in-window exclusion still yields `N` (not `N-1`)
occurrences. -/
theorem exdates_ignored (components : List VEvent) (f : VEvent → List Int)
    (a b : Int) :
    parse_events (components.map (fun c => { c with exdates := f c })) a b =
      parse_events components a b := by
  unfold parse_events
  rw [parse_events_go_exdates]

/-- C2 counterexample: a weekly rule with four in-window occurrences and an
exclusion set holding the second occurrence still yields 4 occurrences, and
the excluded instant is among the produced starts. -/
theorem exclusion_counterexample :
    c2comp.exdates = [1728612000000000] ∧
      (main_events [c2comp] c2a c2b).length = 4 ∧
      1728612000000000 ∈ (main_events [c2comp] c2a c2b).map
        (fun e => e.start) := by decide

theorem parse_events_go_missing_start (a b : Int) :
    ∀ (l : List VEvent) (acc : List Event),
      (∃ c ∈ l, c.name = "VEVENT" ∧ c.dtstart = none) →
      ∃ msg, parse_events_go a b l acc = .error msg := by
  intro l
  induction l with
  | nil =>
    intro acc h
    simp at h
  | cons c cs ih =>
    intro acc h
    simp only [parse_events_go]
    by_cases hn : c.name ≠ "VEVENT"
    · rw [if_pos hn]
      apply ih
      rcases h with ⟨c', hc', hv, hd⟩
      rcases List.mem_cons.mp hc' with rfl | h'
      · exact absurd hv hn
      · exact ⟨c', h', hv, hd⟩
    · rw [if_neg hn]
      rcases hds : c.dtstart with _ | ds
      · have hcomp : component_events c a b =
            .error "AttributeError: NoneType object has no attribute dt" := by
          simp [component_events, hds]
        rw [hcomp]
        exact ⟨_, rfl⟩
      · have htail : ∃ c' ∈ cs, c'.name = "VEVENT" ∧ c'.dtstart = none := by
          rcases h with ⟨c', hc', hv, hd⟩
          rcases List.mem_cons.mp hc' with rfl | h'
          · rw [hds] at hd
            exact absurd hd (by simp)
          · exact ⟨c', h', hv, hd⟩
        rcases hce : component_events c a b with m | ⟨evs, lg⟩
        · exact ⟨m, rfl⟩
        · rcases hl : (acc ++ evs).getLast? with _ | last
          · simp only [hl]
            exact ⟨_, rfl⟩
          · rcases ih (acc ++ evs) htail with ⟨m, hm⟩
            simp only [hl, hm]
            exact ⟨m, rfl⟩

/-- C3 (amended): a raw component that lacks a start bound makes
`parse_events` raise (`None.dt` is an `AttributeError`); `main` catches the
exception and replaces the *entire* event list by `[]`, so the run is not
aborted, but no event is produced from any component — the remaining
components' events are lost rather than preserved. -/
theorem missing_dtstart_amended (components : List VEvent) (a b : Int)
    (h : ∃ c ∈ components, c.name = "VEVENT" ∧ c.dtstart = none) :
    (∃ msg, parse_events components a b = .error msg) ∧
      main_events components a b = [] := by
  rcases parse_events_go_missing_start a b components [] h with ⟨m, hm⟩
  have hp : parse_events components a b = .error m := by
    unfold parse_events
    rw [hm]
  refine ⟨⟨m, hp⟩, ?_⟩
  unfold main_events
  rw [hp]

/-- Witness for the amended C3 at a concrete two-component calendar. -/
theorem missing_dtstart_amended_witness :
    (∃ msg, parse_events [c3good, c3bad] 0 0 = .error msg) ∧
      main_events [c3good, c3bad] 0 0 = [] :=
  missing_dtstart_amended [c3good, c3bad] 0 0
    ⟨c3bad, by decide, rfl, rfl⟩

/-- C3 counterexample: with a well-formed component followed by one lacking
a start bound, `parse_events` raises and `main` ends up with *no* events at
all — even though the well-formed component alone yields one event.  The
claimed per-component skip-and-continue behaviour does not hold. -/
theorem skip_missing_start_counterexample :
    parse_events [c3good, c3bad] 0 0 =
        .error "AttributeError: NoneType object has no attribute dt" ∧
      main_events [c3good, c3bad] 0 0 = [] ∧
      main_events [c3good] 0 0 = [c3goodEvent] := by
  refine ⟨rfl, by decide, by decide⟩

/-- C6: every occurrence admitted by recurrence expansion ends exactly the
source event's original duration (`raw_dtend - raw_dtstart`) after its own
start; the duration is taken verbatim from the source bounds, never
recomputed from the rule. -/
theorem occurrence_duration (c : VEvent) (a b : Int) (ds de : DtValue)
    (interval : Nat) (count : Option Nat) (h1 : c.dtstart = some ds)
    (h2 : c.dtend = some de) (h3 : c.rrule = some (.weekly interval count)) :
    ∀ evs lgs, parse_events [c] a b = .ok (evs, lgs) →
      ∀ e ∈ evs, e.end_ - e.start = de.absInstant - ds.absInstant := by
  intro evs lgs h e he
  rcases parse_events_singleton h with rfl | ⟨lg, hc⟩
  · simp at he
  · simp only [component_events, h1, h2, h3] at hc
    simp only [Except.ok.injEq, Prod.mk.injEq] at hc
    rw [← hc.1] at he
    obtain ⟨o, -, rfl⟩ := List.mem_map.mp he
    ring

/-- Witness for C6: the single in-window occurrence of the 30-minute weekly
event `c6comp` has duration 30 minutes. -/
theorem occurrence_duration_witness :
    c6event.end_ - c6event.start = (1800000000 : Int) := by
  have h := occurrence_duration c6comp 1728007200000000 1728007200000000
    (.datetimeAware 1728007200000000) (.datetimeAware 1728009000000000)
    1 none rfl rfl rfl [c6event]
    [.parsing, .parsedEvent c6event, .total 1] rfl c6event (by decide)
  simpa [DtValue.absInstant] using h

/-- C7: a component whose recurrence rule cannot be parsed (or whose
expansion raises) falls back to exactly one non-recurring instance built
from the component's own start and end, a warning naming the event's summary
is printed, and `parse_events` still returns successfully. -/
theorem malformed_rrule_fallback (c : VEvent) (a b : Int) (ds de : DtValue)
    (msg : String) (h0 : c.name = "VEVENT") (h1 : c.dtstart = some ds)
    (h2 : c.dtend = some de) (h3 : c.rrule = some (.unparsable msg)) :
    parse_events [c] a b =
      .ok ([fallback_event c ds de],
        [.parsing, .rruleWarning (pyStrip (c.summary.getD "")) msg,
         .parsedEvent (fallback_event c ds de), .total 1]) := by
  simp [parse_events, parse_events_go, component_events, fallback_event,
    h0, h1, h2, h3]

/-- Witness for C7 at the concrete component `c7comp`. -/
theorem malformed_rrule_fallback_witness :
    parse_events [c7comp] 0 0 =
      .ok ([c7event],
        [.parsing, .rruleWarning "Gym" "Unknown token",
         .parsedEvent c7event, .total 1]) :=
  malformed_rrule_fallback c7comp 0 0 (.datetimeAware 1728010800000000)
    (.datetimeAware 1728014400000000) "Unknown token" rfl rfl rfl rfl
